import Mathlib

/-!
Verification of the orchestration core of the `ultimate-chat` repository.

The definitions below are a shallow embedding, in Lean 4, of the TypeScript
sources:

* `src/lib/orchestrator.ts` — context-window trimming, attachment analysis,
  retryable-error classification, the generation retry loop, the mode
  resolution step and the research-plan schema;
* `src/lib/mode-detector.ts` — `adjustModeForAttachments` (the quick keyword
  detectors are left as parameters of the orchestration model: the properties
  verified here quantify over their results);
* `src/app/api/chat/route.ts` — request validation and response selection;
* `src/lib/context-manager.ts` — `shouldSummarize`, `generateAndSaveSummary`;
* `src/lib/db/conversations.ts` — `generateTitle` and the title update done
  by `addMessage`.

JavaScript strings are modelled by `String`, numbers by `Nat`/`Int`
(character counts are non-negative; the trim budget may be negative, hence
`Int` there), thrown exceptions by explicit outcome types, and external
calls (model provider, `fetch`) by parameters carrying their outcome.
-/

/-- Message roles: `'user' | 'assistant' | 'system'`. -/
inductive Role where
  | user
  | assistant
  | system
  deriving Repr, DecidableEq

/-- One element of a message's `parts` array.  In the source a part is a
loosely typed object `{ type: string; [key: string]: any }`; the only fields
the orchestrator ever reads are `type` and (for text parts) `text`.  A part
whose `text` field is absent or not a string is modelled by `text = none`. -/
structure MessagePart where
  type : String
  text : Option String
  deriving Repr, DecidableEq

/-- `OrchestratorMessage` from `src/lib/orchestrator.ts`: role, plain-text
`content` (the user question only), and an optional `parts` array. -/
structure OrchestratorMessage where
  role : Role
  content : String
  parts : Option (List MessagePart)
  deriving Repr, DecidableEq

/-- Character estimate of a single part, from `estimateMessageChars`
(`src/lib/orchestrator.ts` lines 81-90): a `text` part counts
`p.text?.length || 0`, an `image` part counts a flat 1000, anything else 0. -/
def partChars (p : MessagePart) : Nat :=
  if p.type = "text" then (p.text.map String.length).getD 0
  else if p.type = "image" then 1000
  else 0

/-- Character estimate of one message: the sum over its `parts`
(`m.parts?.reduce(...) || 0`); a message without `parts` counts 0.  The
`content` string is not consulted. -/
def messageChars (m : OrchestratorMessage) : Nat :=
  ((m.parts.getD []).map partChars).sum

/-- `estimateMessageChars(messages)`: sum of the per-message estimates. -/
def estimateMessageChars (messages : List OrchestratorMessage) : Nat :=
  (messages.map messageChars).sum

/-- `MAX_CONTEXT_CHARS` (`src/lib/orchestrator.ts` line 31). -/
def MAX_CONTEXT_CHARS : Nat := 400000

/-- `SYSTEM_PROMPT_RESERVE` (`src/lib/orchestrator.ts` line 32). -/
def SYSTEM_PROMPT_RESERVE : Nat := 10000

/-- The trim budget computed at `orchestrate` line 315:
`MAX_CONTEXT_CHARS - systemPrompt.length - SYSTEM_PROMPT_RESERVE`.
JavaScript subtraction may go negative, so the result is an `Int`. -/
def availableChars (systemPromptLength : Nat) : Int :=
  (MAX_CONTEXT_CHARS : Int) - systemPromptLength - SYSTEM_PROMPT_RESERVE

/-- The backward walk of `trimMessagesToFit` (lines 149-165).  The source
iterates `i = messages.length - 1 .. 0`, so the first argument here is the
reversed message list; `result` and `totalChars` are the loop state.  When
`totalChars + msgChars > maxChars` the loop stops, force-including the
newest message if `result` is still empty. -/
def trimAux (maxChars : Int) :
    List OrchestratorMessage → List OrchestratorMessage → Nat →
      List OrchestratorMessage
  | [], result, _ => result
  | msg :: rest, result, totalChars =>
    if ((totalChars + estimateMessageChars [msg] : Nat) : Int) > maxChars then
      if result.isEmpty then msg :: result else result
    else
      trimAux maxChars rest (msg :: result)
        (totalChars + estimateMessageChars [msg])

/-- `trimMessagesToFit(messages, maxChars)` (`src/lib/orchestrator.ts`
lines 141-172). -/
def trimMessagesToFit (messages : List OrchestratorMessage) (maxChars : Int) :
    List OrchestratorMessage :=
  trimAux maxChars messages.reverse [] 0

theorem estimateMessageChars_nil : estimateMessageChars [] = 0 := rfl

theorem estimateMessageChars_cons (m : OrchestratorMessage)
    (l : List OrchestratorMessage) :
    estimateMessageChars (m :: l) = messageChars m + estimateMessageChars l := by
  simp [estimateMessageChars]

theorem estimateMessageChars_singleton (m : OrchestratorMessage) :
    estimateMessageChars [m] = messageChars m := by
  simp [estimateMessageChars]

theorem estimateMessageChars_append (l₁ l₂ : List OrchestratorMessage) :
    estimateMessageChars (l₁ ++ l₂) =
      estimateMessageChars l₁ + estimateMessageChars l₂ := by
  simp [estimateMessageChars]

theorem estimateMessageChars_reverse (l : List OrchestratorMessage) :
    estimateMessageChars l.reverse = estimateMessageChars l := by
  simp [estimateMessageChars, List.map_reverse, List.sum_reverse]

/-- The trim loop only ever returns a suffix of the original list. -/
theorem trimAux_suffix (b : Int) :
    ∀ (rev acc : List OrchestratorMessage) (t : Nat),
      trimAux b rev acc t <:+ rev.reverse ++ acc := by
  intro rev
  induction rev with
  | nil => intro acc t; simp [trimAux]
  | cons m rest ih =>
    intro acc t
    simp only [trimAux]
    split
    · split
      · rename_i hres
        rw [List.isEmpty_iff] at hres
        subst hres
        simp [List.suffix_append]
      · calc acc <:+ m :: acc := List.suffix_cons m acc
          _ <:+ rest.reverse ++ m :: acc := List.suffix_append _ _
          _ = (m :: rest).reverse ++ acc := by simp
    · have := ih (m :: acc) (t + estimateMessageChars [m])
      simpa using this

/-- The loop state `result` is always a suffix of the final answer. -/
theorem trimAux_acc_suffix (b : Int) :
    ∀ (rev acc : List OrchestratorMessage) (t : Nat),
      acc <:+ trimAux b rev acc t := by
  intro rev
  induction rev with
  | nil => intro acc t; simp [trimAux]
  | cons m rest ih =>
    intro acc t
    simp only [trimAux]
    split
    · split
      · exact (List.suffix_cons m acc)
      · exact List.suffix_refl acc
    · exact (List.suffix_cons m acc).trans (ih (m :: acc) _)

/-- The last element (newest message) survives the trim loop. -/
theorem trimAux_getLast? (b : Int) :
    ∀ (rev acc : List OrchestratorMessage) (t : Nat),
      (trimAux b rev acc t).getLast? = (rev.reverse ++ acc).getLast? := by
  intro rev
  induction rev with
  | nil => intro acc t; simp [trimAux]
  | cons m rest ih =>
    intro acc t
    simp only [trimAux]
    split
    · split
      · rename_i hres
        rw [List.isEmpty_iff] at hres
        subst hres
        simp [List.getLast?_append]
      · rename_i hres
        rw [List.isEmpty_iff] at hres
        have hacc : acc.getLast? ≠ none := by
          cases acc with
          | nil => exact absurd rfl hres
          | cons a l => simp [List.getLast?]
        cases h : acc.getLast? with
        | none => exact absurd h hacc
        | some a =>
          rw [List.getLast?_append, h]
          rfl
    · have := ih (m :: acc) (t + estimateMessageChars [m])
      rw [this]
      simp [List.getLast?_append]

/-- Budget invariant of the trim loop: as long as the running state satisfies
the budget, any answer with at least two messages fits the budget (the only
way to exceed it is the force-include of a single newest message). -/
theorem trimAux_budget (b : Int) :
    ∀ (rev acc : List OrchestratorMessage) (t : Nat),
      t = estimateMessageChars acc → (acc ≠ [] → (t : Int) ≤ b) →
      2 ≤ (trimAux b rev acc t).length →
      (estimateMessageChars (trimAux b rev acc t) : Int) ≤ b := by
  intro rev
  induction rev with
  | nil =>
    intro acc t ht hle hlen
    simp only [trimAux] at hlen ⊢
    have hne : acc ≠ [] := by
      intro h; subst h; simp at hlen
    rw [← ht]; exact hle hne
  | cons m rest ih =>
    intro acc t ht hle hlen
    simp only [trimAux] at hlen ⊢
    by_cases hover : ((t + estimateMessageChars [m] : Nat) : Int) > b
    · rw [if_pos hover] at hlen ⊢
      by_cases hres : acc.isEmpty = true
      · rw [if_pos hres] at hlen
        rw [List.isEmpty_iff] at hres
        subst hres
        simp at hlen
      · rw [if_neg hres] at hlen ⊢
        rw [List.isEmpty_iff] at hres
        rw [← ht]; exact hle hres
    · rw [if_neg hover] at hlen ⊢
      refine ih (m :: acc) (t + estimateMessageChars [m]) ?_ ?_ hlen
      · simp only [estimateMessageChars_cons, estimateMessageChars_nil,
          estimateMessageChars_singleton, ht]
        omega
      · intro _
        push_neg at hover
        exact hover

/-- Running the trim loop over a chunk whose total size fits the remaining
budget consumes the whole chunk into the result state. -/
theorem trimAux_chunk (b : Int) :
    ∀ (chunk rev acc : List OrchestratorMessage) (t : Nat),
      ((t + estimateMessageChars chunk : Nat) : Int) ≤ b →
      trimAux b (chunk ++ rev) acc t =
        trimAux b rev (chunk.reverse ++ acc) (t + estimateMessageChars chunk) := by
  intro chunk
  induction chunk with
  | nil =>
    intro rev acc t _
    simp [estimateMessageChars_nil]
  | cons m chunk' ih =>
    intro rev acc t hfit
    rw [estimateMessageChars_cons] at hfit
    have hm : ¬ ((t + estimateMessageChars [m] : Nat) : Int) > b := by
      rw [estimateMessageChars_singleton]
      push_neg
      push_cast at hfit ⊢
      omega
    simp only [List.cons_append, trimAux, List.append_eq]
    rw [if_neg hm]
    rw [estimateMessageChars_singleton]
    rw [ih rev (m :: acc) (t + messageChars m) (by push_cast at hfit ⊢; omega)]
    congr 1
    · simp
    · rw [estimateMessageChars_cons]; omega

/-- C1: for every message list and every computed budget (the context ceiling
400000 chars minus the system prompt length minus the 10000-char reserve),
`trimMessagesToFit` returns a contiguous suffix of the input (no gaps, order
preserved); a non-empty input always keeps its most recent message, even when
that message alone exceeds the budget; and whenever the result holds more
than the last message, its total estimated size fits the budget. -/
theorem trimMessagesToFit_spec (messages : List OrchestratorMessage)
    (systemPromptLength : Nat) :
    trimMessagesToFit messages (availableChars systemPromptLength) <:+ messages
    ∧ (messages ≠ [] →
        trimMessagesToFit messages (availableChars systemPromptLength) ≠ [] ∧
        (trimMessagesToFit messages (availableChars systemPromptLength)).getLast? =
          messages.getLast?)
    ∧ (2 ≤ (trimMessagesToFit messages (availableChars systemPromptLength)).length →
        (estimateMessageChars
            (trimMessagesToFit messages (availableChars systemPromptLength)) : Int) ≤
          availableChars systemPromptLength) := by
  refine ⟨?_, ?_, ?_⟩
  · have h := trimAux_suffix (availableChars systemPromptLength) messages.reverse [] 0
    simpa [trimMessagesToFit] using h
  · intro hne
    have h := trimAux_getLast? (availableChars systemPromptLength) messages.reverse [] 0
    have hl : (trimMessagesToFit messages (availableChars systemPromptLength)).getLast? =
        messages.getLast? := by
      simpa [trimMessagesToFit] using h
    refine ⟨?_, hl⟩
    intro hnil
    rw [hnil] at hl
    have : messages.getLast?.isSome := List.getLast?_isSome.mpr hne
    rw [← hl] at this
    simp [List.getLast?] at this
  · intro hlen
    exact trimAux_budget (availableChars systemPromptLength) messages.reverse [] 0
      rfl (fun h => absurd rfl h) hlen

/-- Witness for `trimMessagesToFit_spec` at a concrete two-message history
and the budget computed for an empty system prompt. -/
theorem trimMessagesToFit_spec_witness :
    (trimMessagesToFit [⟨Role.user, "hi", some [⟨"text", some "hi"⟩]⟩,
        ⟨Role.assistant, "ok", none⟩] (availableChars 0)).getLast? =
      ([⟨Role.user, "hi", some [⟨"text", some "hi"⟩]⟩,
        ⟨Role.assistant, "ok", none⟩] : List OrchestratorMessage).getLast?
    ∧ (estimateMessageChars (trimMessagesToFit
          [⟨Role.user, "hi", some [⟨"text", some "hi"⟩]⟩,
           ⟨Role.assistant, "ok", none⟩] (availableChars 0)) : Int) ≤
        availableChars 0 :=
  ⟨((trimMessagesToFit_spec [⟨Role.user, "hi", some [⟨"text", some "hi"⟩]⟩,
      ⟨Role.assistant, "ok", none⟩] 0).2.1 (by decide)).2,
   (trimMessagesToFit_spec [⟨Role.user, "hi", some [⟨"text", some "hi"⟩]⟩,
      ⟨Role.assistant, "ok", none⟩] 0).2.2 (by decide)⟩

/-- C10 (counterexample): the claim that a message of estimated size 0 is
never dropped by `trimMessagesToFit` is false: here the older message has no
`parts` (estimated size 0, arbitrarily long `content`), yet it is dropped
because the newer message already overflows the budget of 5 and is
force-included alone. -/
theorem estimateMessageChars_zero_message_dropped :
    messageChars ⟨Role.user, "some very long content", none⟩ = 0
    ∧ (⟨Role.user, "some very long content", none⟩ : OrchestratorMessage) ∉
        trimMessagesToFit
          [⟨Role.user, "some very long content", none⟩,
           ⟨Role.user, "", some [⟨"text", some "aaaaaa"⟩]⟩] 5 := by
  constructor
  · rfl
  · decide

/-- C10 (amended): the character size used for trimming counts only a
message's `parts` — each `text` part contributes its text length, each
`image` part a flat 1000, any other part 0; the `content` string and absent
`parts` contribute 0.  Consequently a message of estimated size 0 is never
itself the cause of a trim cutoff: whenever the strictly newer messages fit
the budget, the zero-size message is retained (though it can still be
dropped when a newer message overflows the budget first). -/
theorem estimateMessageChars_parts_only_retention :
    (∀ (m : OrchestratorMessage) (c : String),
        messageChars { m with content := c } = messageChars m)
    ∧ (∀ (r : Role) (c : String), messageChars ⟨r, c, none⟩ = 0)
    ∧ (∀ p : MessagePart, p.type ≠ "text" → p.type ≠ "image" → partChars p = 0)
    ∧ (∀ t : String, partChars ⟨"text", some t⟩ = t.length)
    ∧ (∀ s : Option String, partChars ⟨"image", s⟩ = 1000)
    ∧ (∀ (pre post : List OrchestratorMessage) (m : OrchestratorMessage) (b : Int),
        messageChars m = 0 → (estimateMessageChars post : Int) ≤ b →
        m :: post <:+ trimMessagesToFit (pre ++ m :: post) b) := by
  refine ⟨fun m c => rfl, fun r c => rfl, ?_, fun t => rfl, ?_, ?_⟩
  · intro p h1 h2
    simp [partChars, h1, h2]
  · intro s
    simp [partChars]
  · intro pre post m b hm hfit
    have hrev : (pre ++ m :: post).reverse = (post.reverse ++ [m]) ++ pre.reverse := by
      simp
    have hchunk : ((0 + estimateMessageChars (post.reverse ++ [m]) : Nat) : Int) ≤ b := by
      rw [estimateMessageChars_append, estimateMessageChars_reverse,
        estimateMessageChars_singleton, hm]
      simpa using hfit
    have h := trimAux_chunk b (post.reverse ++ [m]) pre.reverse [] 0 hchunk
    have hacc := trimAux_acc_suffix b pre.reverse
      ((post.reverse ++ [m]).reverse ++ [])
      (0 + estimateMessageChars (post.reverse ++ [m]))
    rw [trimMessagesToFit, hrev, h]
    simpa using hacc

/-- A thrown JavaScript value: either an `Error` instance carrying a
`message` string, or any other value.  `isRetryableError` (line 64) first
checks `error instanceof Error` and treats everything else as
non-retryable. -/
inductive ThrownValue where
  | jsError (message : String)
  | nonError
  deriving Repr, DecidableEq

/-- Does the character list start with the pattern? -/
def charsStartWith : List Char → List Char → Bool
  | [], _ => true
  | _ :: _, [] => false
  | p :: ps, c :: cs => p == c && charsStartWith ps cs

/-- Does the character list contain the pattern as a contiguous run?
Model of `String.prototype.includes`. -/
def charsIncludes (pat : List Char) : List Char → Bool
  | [] => pat.isEmpty
  | c :: cs => charsStartWith pat (c :: cs) || charsIncludes pat cs

/-- `s.includes(pat)` on strings. -/
def strIncludes (s pat : String) : Bool := charsIncludes pat.toList s.toList

/-- `s.toLowerCase()`, character by character (the signatures compared
against are plain ASCII). -/
def toLowerStr (s : String) : String := String.mk (s.toList.map Char.toLower)

/-- `isRetryableError` (`src/lib/orchestrator.ts` lines 64-76): an `Error`
whose lower-cased message contains one of the seven transient-failure
signatures. -/
def isRetryableError : ThrownValue → Bool
  | .jsError message =>
    strIncludes (toLowerStr message) "429" ||
    strIncludes (toLowerStr message) "503" ||
    strIncludes (toLowerStr message) "504" ||
    strIncludes (toLowerStr message) "rate limit" ||
    strIncludes (toLowerStr message) "timeout" ||
    strIncludes (toLowerStr message) "temporarily" ||
    strIncludes (toLowerStr message) "resource_exhausted"
  | .nonError => false

/-- `MAX_RETRIES` (`src/lib/orchestrator.ts` line 22). -/
def MAX_RETRIES : Nat := 3

/-- `RETRY_DELAY_BASE` in milliseconds (`src/lib/orchestrator.ts` line 23). -/
def RETRY_DELAY_BASE : Nat := 1000

/-- Observable behaviour of one run of the generation retry loop:
how many times `streamText` was invoked, the sleeps performed between
attempts (in order, in ms), and whether a stream was returned
(`succeeded = false` means the loop fell through to the fallback call). -/
structure GenerationTrace where
  calls : Nat
  delays : List Nat
  succeeded : Bool
  deriving Repr, DecidableEq

/-- The `for (attempt = 0; attempt < MAX_RETRIES; attempt++)` loop of
`orchestrate` (lines 348-396), with the provider call abstracted as
`attempts : Nat → Option ThrownValue` (`none` = the call at that index
returns a stream; `some e` = it throws `e`).  On a throw the loop retries
(after `RETRY_DELAY_BASE * 2 ^ attempt` ms) iff the error is retryable and
further attempts remain; otherwise it breaks.  `fuel` is the number of loop
iterations still allowed, `MAX_RETRIES - attempt` at every reachable call. -/
def generationLoop (attempts : Nat → Option ThrownValue) :
    Nat → Nat → GenerationTrace
  | _, 0 => ⟨0, [], false⟩
  | attempt, fuel + 1 =>
    match attempts attempt with
    | none => ⟨1, [], true⟩
    | some e =>
      if isRetryableError e && decide (attempt < MAX_RETRIES - 1) then
        let rest := generationLoop attempts (attempt + 1) fuel
        ⟨rest.calls + 1, RETRY_DELAY_BASE * 2 ^ attempt :: rest.delays,
          rest.succeeded⟩
      else ⟨1, [], false⟩

/-- The full retry loop as entered by `orchestrate`: attempt 0, at most
`MAX_RETRIES` iterations. -/
def runGenerationWithRetry (attempts : Nat → Option ThrownValue) :
    GenerationTrace :=
  generationLoop attempts 0 MAX_RETRIES

theorem generationLoop_none (attempts : Nat → Option ThrownValue)
    (i f : Nat) (h : attempts i = none) :
    generationLoop attempts i (f + 1) = ⟨1, [], true⟩ := by
  simp [generationLoop, h]

theorem generationLoop_some_retry (attempts : Nat → Option ThrownValue)
    (i f : Nat) (e : ThrownValue) (h : attempts i = some e)
    (hc : (isRetryableError e && decide (i < MAX_RETRIES - 1)) = true) :
    generationLoop attempts i (f + 1) =
      ⟨(generationLoop attempts (i + 1) f).calls + 1,
       RETRY_DELAY_BASE * 2 ^ i :: (generationLoop attempts (i + 1) f).delays,
       (generationLoop attempts (i + 1) f).succeeded⟩ := by
  rcases Bool.and_eq_true_iff.mp hc with ⟨h1, h2⟩
  simp [generationLoop, h, h1, of_decide_eq_true h2]

theorem generationLoop_some_break (attempts : Nat → Option ThrownValue)
    (i f : Nat) (e : ThrownValue) (h : attempts i = some e)
    (hc : (isRetryableError e && decide (i < MAX_RETRIES - 1)) = false) :
    generationLoop attempts i (f + 1) = ⟨1, [], false⟩ := by
  rcases Bool.and_eq_false_iff.mp hc with h1 | h2
  · simp [generationLoop, h, h1]
  · simp [generationLoop, h, of_decide_eq_false h2]

theorem generationLoop_calls_le (attempts : Nat → Option ThrownValue) :
    ∀ (fuel i : Nat), (generationLoop attempts i fuel).calls ≤ fuel := by
  intro fuel
  induction fuel with
  | zero => intro i; simp [generationLoop]
  | succ f ih =>
    intro i
    cases h0 : attempts i with
    | none => rw [generationLoop_none attempts i f h0]; simp
    | some e =>
      cases hc : (isRetryableError e && decide (i < MAX_RETRIES - 1)) with
      | true =>
        rw [generationLoop_some_retry attempts i f e h0 hc]
        simpa using Nat.succ_le_succ (ih (i + 1))
      | false =>
        rw [generationLoop_some_break attempts i f e h0 hc]
        simp

theorem generationLoop_calls_pos (attempts : Nat → Option ThrownValue)
    (f i : Nat) : 1 ≤ (generationLoop attempts i (f + 1)).calls := by
  cases h0 : attempts i with
  | none => rw [generationLoop_none attempts i f h0]
  | some e =>
    cases hc : (isRetryableError e && decide (i < MAX_RETRIES - 1)) with
    | true =>
      rw [generationLoop_some_retry attempts i f e h0 hc]
      simp
    | false =>
      rw [generationLoop_some_break attempts i f e h0 hc]

theorem generationLoop_delays (attempts : Nat → Option ThrownValue) :
    ∀ (fuel i : Nat), MAX_RETRIES ≤ i + fuel →
      (generationLoop attempts i fuel).delays =
        (List.range ((generationLoop attempts i fuel).calls - 1)).map
          (fun j => RETRY_DELAY_BASE * 2 ^ (i + j)) := by
  intro fuel
  induction fuel with
  | zero => intro i _; simp [generationLoop]
  | succ f ih =>
    intro i hfuel
    cases h0 : attempts i with
    | none => rw [generationLoop_none attempts i f h0]; simp
    | some e =>
      cases hc : (isRetryableError e && decide (i < MAX_RETRIES - 1)) with
      | true =>
        rw [generationLoop_some_retry attempts i f e h0 hc]
        have hlt : i < MAX_RETRIES - 1 :=
          of_decide_eq_true (Bool.and_eq_true_iff.mp hc).2
        have hmr : MAX_RETRIES = 3 := rfl
        obtain ⟨f', rfl⟩ : ∃ f', f = f' + 1 := ⟨f - 1, by omega⟩
        have hpos := generationLoop_calls_pos attempts f' (i + 1)
        obtain ⟨k, hk⟩ : ∃ k,
            (generationLoop attempts (i + 1) (f' + 1)).calls = k + 1 :=
          ⟨(generationLoop attempts (i + 1) (f' + 1)).calls - 1, by omega⟩
        have hrec := ih (i + 1) (by omega)
        rw [hk] at hrec
        simp only [hk, Nat.add_sub_cancel] at hrec ⊢
        rw [hrec, List.range_succ_eq_map, List.map_cons, List.map_map]
        rw [List.cons_eq_cons]
        refine ⟨by simp, ?_⟩
        apply List.map_congr_left
        intro j _
        simp only [Function.comp_apply]
        congr 2
        omega
      | false =>
        rw [generationLoop_some_break attempts i f e h0 hc]
        simp

theorem generationLoop_retried_only_retryable
    (attempts : Nat → Option ThrownValue) :
    ∀ (fuel i j : Nat), j + 1 < (generationLoop attempts i fuel).calls →
      ∃ e, attempts (i + j) = some e ∧ isRetryableError e = true := by
  intro fuel
  induction fuel with
  | zero => intro i j h; simp [generationLoop] at h
  | succ f ih =>
    intro i j h
    cases h0 : attempts i with
    | none =>
      rw [generationLoop_none attempts i f h0] at h
      simp at h
    | some e =>
      cases hc : (isRetryableError e && decide (i < MAX_RETRIES - 1)) with
      | true =>
        rw [generationLoop_some_retry attempts i f e h0 hc] at h
        cases j with
        | zero => exact ⟨e, by simpa using h0, (Bool.and_eq_true_iff.mp hc).1⟩
        | succ j' =>
          obtain ⟨e', he', hr'⟩ := ih (i + 1) j' (by simpa using Nat.lt_of_add_lt_add_right h)
          refine ⟨e', ?_, hr'⟩
          rw [← he']
          congr 1
          omega
      | false =>
        rw [generationLoop_some_break attempts i f e h0 hc] at h
        simp at h

/-- C2: the generation retry loop attempts `streamText` at most 3 times;
every retry is preceded by a sleep of `RETRY_DELAY_BASE * 2 ^ attempt`
(base 1000 ms), and happens only when the thrown error is retryable per
`isRetryableError`; on a non-retryable error at the first attempt the loop
exits immediately, having invoked the generation call exactly once, with no
sleep, before the fallback call is issued (`succeeded = false`). -/
theorem runGenerationWithRetry_spec (attempts : Nat → Option ThrownValue) :
    (runGenerationWithRetry attempts).calls ≤ 3
    ∧ (runGenerationWithRetry attempts).delays =
        (List.range ((runGenerationWithRetry attempts).calls - 1)).map
          (fun j => RETRY_DELAY_BASE * 2 ^ j)
    ∧ (∀ j, j + 1 < (runGenerationWithRetry attempts).calls →
        ∃ e, attempts j = some e ∧ isRetryableError e = true)
    ∧ (∀ e, attempts 0 = some e → isRetryableError e = false →
        runGenerationWithRetry attempts = ⟨1, [], false⟩) := by
  refine ⟨?_, ?_, ?_, ?_⟩
  · exact generationLoop_calls_le attempts MAX_RETRIES 0
  · have h := generationLoop_delays attempts MAX_RETRIES 0 (by simp)
    rw [runGenerationWithRetry, h]
    apply List.map_congr_left
    intro j _
    simp
  · intro j hj
    have h := generationLoop_retried_only_retryable attempts MAX_RETRIES 0 j hj
    simpa using h
  · intro e h0 hr
    have hc : (isRetryableError e && decide (0 < MAX_RETRIES - 1)) = false := by
      simp [hr]
    have h := generationLoop_some_break attempts 0 (MAX_RETRIES - 1) e h0 hc
    simpa [runGenerationWithRetry] using h

/-- Witness for `runGenerationWithRetry_spec`: with every attempt throwing a
retryable `503` error the second attempt is confirmed retryable, and with a
non-retryable error on the first attempt the loop performs exactly one call,
no sleeps, and falls back. -/
theorem runGenerationWithRetry_spec_witness :
    (∃ e, (fun _ => some (ThrownValue.jsError "503 Service Unavailable")) 1 =
        some e ∧ isRetryableError e = true)
    ∧ runGenerationWithRetry (fun _ => some (ThrownValue.jsError "bad api key"))
        = ⟨1, [], false⟩ :=
  ⟨(runGenerationWithRetry_spec
      (fun _ => some (ThrownValue.jsError "503 Service Unavailable"))).2.2.1 1
      (by decide),
   (runGenerationWithRetry_spec
      (fun _ => some (ThrownValue.jsError "bad api key"))).2.2.2
      (ThrownValue.jsError "bad api key") rfl (by decide)⟩

/-- `ChatMode` from `src/types/index.ts`. -/
inductive ChatMode where
  | general
  | research
  | coding
  deriving Repr, DecidableEq

/-- `ThinkingLevel` from `src/types/index.ts`. -/
inductive ThinkingLevel where
  | minimal
  | low
  | medium
  | high
  deriving Repr, DecidableEq

/-- Result type of `adjustModeForAttachments`. -/
structure ModeAdjustment where
  mode : ChatMode
  thinkingLevel : ThinkingLevel
  deriving Repr, DecidableEq

/-- `adjustModeForAttachments` (`src/lib/mode-detector.ts` lines 318-349). -/
def adjustModeForAttachments (detectedMode : ChatMode)
    (hasTextAttachment hasImageAttachment hasCodeAttachment : Bool) :
    ModeAdjustment :=
  if hasCodeAttachment && decide (detectedMode = ChatMode.coding) then
    ⟨ChatMode.coding, ThinkingLevel.high⟩
  else if (hasTextAttachment || hasImageAttachment) &&
      decide (detectedMode = ChatMode.research) then
    ⟨ChatMode.general, ThinkingLevel.medium⟩
  else if hasImageAttachment && decide (detectedMode = ChatMode.general) then
    ⟨ChatMode.general, ThinkingLevel.medium⟩
  else if hasTextAttachment then
    ⟨detectedMode, ThinkingLevel.medium⟩
  else
    ⟨detectedMode,
     if detectedMode = ChatMode.research then ThinkingLevel.high
     else ThinkingLevel.medium⟩

/-- The file-extension allowlist used by `analyzeAttachments` (line 121). -/
def CODE_EXTENSIONS : List String :=
  ["ts", "tsx", "js", "jsx", "py", "go", "rs", "java", "cpp", "c", "rb"]

/-- Model of `/name="([^"]+)"/` applied to an attachment annotation: scan for
the literal `name="`, capture the following non-empty run of characters up
to the next `"`; an empty capture does not match (the regex requires one or
more characters) and the scan continues. -/
def matchNameAttr : List Char → Option (List Char)
  | [] => none
  | c :: cs =>
    if charsStartWith "name=\"".toList (c :: cs) then
      let captured := ((c :: cs).drop 6).takeWhile (fun ch => ch ≠ '"')
      if captured.isEmpty then matchNameAttr cs else some captured
    else matchNameAttr cs

/-- `nameMatch[1].split('.').pop()?.toLowerCase()` checked against the
extension allowlist (lines 118-123). -/
def isCodeFileName (name : String) : Bool :=
  match (name.splitOn ".").getLast? with
  | some ext => CODE_EXTENSIONS.contains (toLowerStr ext)
  | none => false

/-- Result record of `analyzeAttachments`. -/
structure AttachmentInfo where
  hasAttachments : Bool
  hasTextAttachment : Bool
  hasImageAttachment : Bool
  hasCodeAttachment : Bool
  deriving Repr, DecidableEq

/-- Is this text part an attachment annotation (`text` present and
containing the `<attached_file` marker)? -/
def isAttachedFileText (p : MessagePart) : Bool :=
  p.type = "text" &&
    (match p.text with
     | some t => strIncludes t "<attached_file"
     | none => false)

/-- `analyzeAttachments` (`src/lib/orchestrator.ts` lines 95-135): scan
every part of every message; an `image` part sets the image flag, a `file`
part sets the text flag, a `text` part containing `<attached_file` sets the
text flag and — when its `name="..."` attribute has a code extension — the
code flag.  The imperative two-level loop accumulating three booleans is
expressed as `any` over the concatenated parts. -/
def analyzeAttachments (messages : List OrchestratorMessage) :
    AttachmentInfo :=
  let allParts := messages.foldr (fun m acc => (m.parts.getD []) ++ acc) []
  let hasImageAttachment := allParts.any (fun p => p.type = "image")
  let hasTextAttachment :=
    allParts.any (fun p => p.type = "file" || isAttachedFileText p)
  let hasCodeAttachment :=
    allParts.any (fun p =>
      isAttachedFileText p &&
        (match p.text with
         | some t =>
           (match matchNameAttr t.toList with
            | some captured => isCodeFileName (String.mk captured)
            | none => false)
         | none => false))
  ⟨hasTextAttachment || hasImageAttachment || hasCodeAttachment,
   hasTextAttachment, hasImageAttachment, hasCodeAttachment⟩

/-- `messages.filter(m => m.role === 'user').pop()?.content || ''`
(`orchestrate` lines 205-207). -/
def lastUserMessage (messages : List OrchestratorMessage) : String :=
  (((messages.filter (fun m => m.role = Role.user)).getLast?).map
    (fun m => m.content)).getD ""

/-- Success value of `detectIntent` (`src/lib/mode-detector.ts`): the fields
of the classification the orchestrator actually uses. -/
structure IntentResult where
  mode : ChatMode
  thinkingLevel : ThinkingLevel
  deriving Repr, DecidableEq

/-- Outcome of Step 2 of `orchestrate` (lines 225-259), together with
whether the paid `detectIntent` call was issued. -/
structure ModeResolution where
  detectedMode : ChatMode
  detectedThinkingLevel : ThinkingLevel
  detectIntentCalled : Bool
  deriving Repr, DecidableEq

/-- Step 2 of `orchestrate` (lines 225-259).  `quickMode` and `needsSearch`
stand for `detectModeQuick(lastUserMessage)` and
`needsSearchQuick(lastUserMessage)` (their keyword internals are not needed
by the properties proved here, which quantify over their results);
`aiIntent` is the outcome of `detectIntent` (`none` models a throw, handled
by the `catch` that falls back to the quick mode). -/
def resolveMode (explicitMode : Option ChatMode)
    (explicitThinkingLevel : Option ThinkingLevel) (useAutoDetect : Bool)
    (attachmentInfo : AttachmentInfo) (quickMode : ChatMode)
    (needsSearch : Bool) (aiIntent : Option IntentResult) : ModeResolution :=
  let initMode := explicitMode.getD ChatMode.general
  let initLevel := explicitThinkingLevel.getD ThinkingLevel.medium
  if useAutoDetect && explicitMode.isNone then
    if attachmentInfo.hasAttachments then
      let adjusted := adjustModeForAttachments quickMode
        attachmentInfo.hasTextAttachment attachmentInfo.hasImageAttachment
        attachmentInfo.hasCodeAttachment
      ⟨adjusted.mode, adjusted.thinkingLevel, false⟩
    else if decide (quickMode = ChatMode.general) && needsSearch then
      match aiIntent with
      | some intent => ⟨intent.mode, intent.thinkingLevel, true⟩
      | none => ⟨quickMode, initLevel, true⟩
    else
      ⟨quickMode,
       (if quickMode = ChatMode.research then ThinkingLevel.high
        else if quickMode = ChatMode.coding then ThinkingLevel.high
        else ThinkingLevel.medium), false⟩
  else ⟨initMode, initLevel, false⟩

/-- One `(query, purpose, language)` triple of a research plan.  `language`
is kept as a raw string; the schema validates it against `enum(['en','ja'])`. -/
structure SearchQuery where
  query : String
  purpose : String
  language : String
  deriving Repr, DecidableEq

/-- `ResearchPlan` as produced by `generateObject` against
`researchPlanSchema` (`src/lib/orchestrator.ts` lines 176-185). -/
structure ResearchPlan where
  searchQueries : List SearchQuery
  urlsToAnalyze : List String
  expectedSources : String
  fallbackStrategy : String
  deriving Repr, DecidableEq

/-- The constraint `researchPlanSchema` actually imposes on a candidate plan
value (lines 176-185): every entry of `searchQueries` is a (query, purpose,
language) object with `language ∈ {'en','ja'}`; `urlsToAnalyze` is a string
list and the two remaining fields are strings.  The field types are carried
by the `ResearchPlan` structure itself; note the schema declares no bound on
the length of `searchQueries`. -/
def researchPlanSchemaAccepts (p : ResearchPlan) : Bool :=
  p.searchQueries.all (fun q => q.language = "en" || q.language = "ja")

/-- What `orchestrate` produces, observationally: the resolved mode and
thinking level, whether `detectIntent` and the Research Planner were
invoked, the plan attached to the result, and the step ceiling. -/
structure OrchestratorOutcome where
  detectedMode : ChatMode
  detectedThinkingLevel : ThinkingLevel
  detectIntentCalled : Bool
  plannerInvoked : Bool
  researchPlan : Option ResearchPlan
  maxSteps : Nat
  deriving Repr, DecidableEq

/-- Steps 1-3 and 6 of `orchestrate` (lines 202-338): attachment analysis,
mode resolution, the research-planning guard
`detectedMode === 'research' && !attachmentInfo.hasAttachments`, and the
step-ceiling choice.  `plannerResult` is the outcome of
`generateResearchPlanWithRetry` (`none` models a throw, caught at line 286:
the run continues without a plan). -/
def orchestrateModel (messages : List OrchestratorMessage)
    (explicitMode : Option ChatMode)
    (explicitThinkingLevel : Option ThinkingLevel) (useAutoDetect : Bool)
    (quickMode : ChatMode) (needsSearch : Bool)
    (aiIntent : Option IntentResult) (plannerResult : Option ResearchPlan) :
    OrchestratorOutcome :=
  let attachmentInfo := analyzeAttachments messages
  let res := resolveMode explicitMode explicitThinkingLevel useAutoDetect
    attachmentInfo quickMode needsSearch aiIntent
  let plannerInvoked :=
    decide (res.detectedMode = ChatMode.research) &&
      !attachmentInfo.hasAttachments
  let researchPlan := if plannerInvoked then plannerResult else none
  let maxSteps : Nat :=
    if attachmentInfo.hasAttachments then 3
    else if res.detectedMode = ChatMode.research then 10
    else if res.detectedMode = ChatMode.coding then 5
    else 3
  ⟨res.detectedMode, res.detectedThinkingLevel, res.detectIntentCalled,
   plannerInvoked, researchPlan, maxSteps⟩

/-- C3: in a run with auto-detection enabled, no explicit mode and no
attachment present, the paid `detectIntent` classification call is issued
iff the quick keyword detector returned `general` AND `needsSearchQuick`
returned true; in every other case the quick result is used directly as the
resolved mode with no classification call. -/
theorem detectIntent_escalation_policy
    (messages : List OrchestratorMessage)
    (explicitThinkingLevel : Option ThinkingLevel) (quickMode : ChatMode)
    (needsSearch : Bool) (aiIntent : Option IntentResult)
    (plannerResult : Option ResearchPlan)
    (hnoatt : (analyzeAttachments messages).hasAttachments = false) :
    ((orchestrateModel messages none explicitThinkingLevel true quickMode
        needsSearch aiIntent plannerResult).detectIntentCalled = true ↔
      (quickMode = ChatMode.general ∧ needsSearch = true))
    ∧ (¬(quickMode = ChatMode.general ∧ needsSearch = true) →
        (orchestrateModel messages none explicitThinkingLevel true quickMode
          needsSearch aiIntent plannerResult).detectedMode = quickMode) := by
  cases aiIntent <;> cases needsSearch <;> cases quickMode <;>
    simp [orchestrateModel, resolveMode, hnoatt, adjustModeForAttachments]

/-- Witness for `detectIntent_escalation_policy`: an empty history (no
attachments), quick mode `general` and `needsSearchQuick` true trigger the
classification call. -/
theorem detectIntent_escalation_policy_witness :
    (orchestrateModel [] none none true ChatMode.general true
      (some ⟨ChatMode.research, ThinkingLevel.high⟩) none).detectIntentCalled
      = true :=
  (detectIntent_escalation_policy [] none ChatMode.general true
    (some ⟨ChatMode.research, ThinkingLevel.high⟩) none (by decide)).1.mpr
    ⟨rfl, rfl⟩

/-- C4: whenever any attachment is detected the Research Planner is never
invoked and the orchestration result carries no research plan, regardless of
the resolved mode; conversely the planner runs exactly when the resolved
mode is `research` and no attachment is present. -/
theorem researchPlanner_guard (messages : List OrchestratorMessage)
    (explicitMode : Option ChatMode)
    (explicitThinkingLevel : Option ThinkingLevel) (useAutoDetect : Bool)
    (quickMode : ChatMode) (needsSearch : Bool)
    (aiIntent : Option IntentResult) (plannerResult : Option ResearchPlan) :
    ((analyzeAttachments messages).hasAttachments = true →
      (orchestrateModel messages explicitMode explicitThinkingLevel
          useAutoDetect quickMode needsSearch aiIntent
          plannerResult).plannerInvoked = false ∧
      (orchestrateModel messages explicitMode explicitThinkingLevel
          useAutoDetect quickMode needsSearch aiIntent
          plannerResult).researchPlan = none)
    ∧ ((orchestrateModel messages explicitMode explicitThinkingLevel
          useAutoDetect quickMode needsSearch aiIntent
          plannerResult).plannerInvoked = true ↔
        ((orchestrateModel messages explicitMode explicitThinkingLevel
            useAutoDetect quickMode needsSearch aiIntent
            plannerResult).detectedMode = ChatMode.research ∧
          (analyzeAttachments messages).hasAttachments = false)) := by
  constructor
  · intro hatt
    simp [orchestrateModel, hatt]
  · cases hatt : (analyzeAttachments messages).hasAttachments <;>
      simp [orchestrateModel, hatt, Bool.and_eq_true, decide_eq_true_iff]

/-- Witness for `researchPlanner_guard`: a history holding an image part has
an attachment, so the planner is skipped and no plan is attached. -/
theorem researchPlanner_guard_witness :
    (orchestrateModel [⟨Role.user, "", some [⟨"image", none⟩]⟩] none none
        true ChatMode.research false none
        (some ⟨[], [], "", ""⟩)).plannerInvoked = false ∧
    (orchestrateModel [⟨Role.user, "", some [⟨"image", none⟩]⟩] none none
        true ChatMode.research false none
        (some ⟨[], [], "", ""⟩)).researchPlan = none :=
  (researchPlanner_guard [⟨Role.user, "", some [⟨"image", none⟩]⟩] none none
    true ChatMode.research false none (some ⟨[], [], "", ""⟩)).1 (by decide)

/-- C6 (counterexample): `researchPlanSchema` declares no maximum on
`searchQueries`, so a plan with 6 well-formed triples passes schema
validation, falsifying the claimed `length ≤ 5` guarantee. -/
theorem researchPlanSchema_six_queries_accepted :
    researchPlanSchemaAccepts
      ⟨List.replicate 6 ⟨"q", "p", "en"⟩, [], "s", "f"⟩ = true
    ∧ ¬((⟨List.replicate 6 ⟨"q", "p", "en"⟩, [], "s", "f"⟩ :
        ResearchPlan).searchQueries.length ≤ 5) := by
  constructor
  · decide
  · decide

/-- C6 (amended): the plan schema constrains only the shape of each triple
(its `language` must be `en` or `ja`); it imposes no bound on the number of
search queries — plans of every length are accepted.  The ≤ 5 cap exists
only as guidance in the planner prompt, not in the schema. -/
theorem researchPlanSchema_no_length_cap :
    (∀ (qs : List SearchQuery) (urls : List String) (es fs : String),
        researchPlanSchemaAccepts ⟨qs, urls, es, fs⟩ =
          qs.all (fun q => q.language = "en" || q.language = "ja"))
    ∧ (∀ n : Nat, researchPlanSchemaAccepts
        ⟨List.replicate n ⟨"q", "p", "en"⟩, [], "", ""⟩ = true) := by
  constructor
  · intro qs urls es fs
    rfl
  · intro n
    rw [researchPlanSchemaAccepts, List.all_eq_true]
    intro q hq
    rw [List.eq_of_mem_replicate hq]
    decide

/-- `Message` as consumed by the context manager
(`src/lib/context-manager.ts`): only `role` and `content` are read. -/
structure CtxMessage where
  role : Role
  content : String
  deriving Repr, DecidableEq

/-- `SUMMARY_THRESHOLD` (`src/lib/context-manager.ts` line 14). -/
def SUMMARY_THRESHOLD : Nat := 20

/-- `SHORT_TERM_TURNS` (`src/lib/context-manager.ts` line 17). -/
def SHORT_TERM_TURNS : Nat := 20

/-- `shouldSummarize(messages, conversationId)`
(`src/lib/context-manager.ts` lines 45-48): user-turn count against the
threshold; `conversationId` is accepted and ignored, as in the source. -/
def shouldSummarize (messages : List CtxMessage)
    (conversationId : String) : Bool :=
  decide (SUMMARY_THRESHOLD ≤
    (messages.filter (fun m => decide (m.role = Role.user))).length)

/-- C7: `shouldSummarize` is true iff the number of `user`-role messages is
at least 20; in particular 19 user turns yield false and exactly 20 yield
true. -/
theorem shouldSummarize_spec :
    (∀ (messages : List CtxMessage) (conversationId : String),
        shouldSummarize messages conversationId = true ↔
          20 ≤ (messages.filter (fun m => decide (m.role = Role.user))).length)
    ∧ shouldSummarize (List.replicate 19 ⟨Role.user, "q"⟩) "c" = false
    ∧ shouldSummarize (List.replicate 20 ⟨Role.user, "q"⟩) "c" = true := by
  refine ⟨?_, by decide, by decide⟩
  intro messages _
  rw [shouldSummarize]
  exact decide_eq_true_iff

/-- Witness for `shouldSummarize_spec`: the threshold characterisation
evaluated on 20 concrete user turns. -/
theorem shouldSummarize_spec_witness :
    shouldSummarize (List.replicate 20 ⟨Role.user, "q"⟩) "c" = true :=
  (shouldSummarize_spec.1 (List.replicate 20 ⟨Role.user, "q"⟩) "c").mpr
    (by decide)

/-- `ConversationSummary` from `src/types/index.ts`. -/
structure ConversationSummary where
  projectContext : String
  decisions : List String
  userPreferences : List String
  keyInformation : List String
  currentState : String
  deriving Repr, DecidableEq

/-- Outcome of the `fetch('/api/summarize', ...)` call inside
`generateAndSaveSummary`: a parsed summary on HTTP success, a non-OK
response status, or a thrown error (network failure, JSON failure, ...). -/
inductive SummaryFetchOutcome where
  | ok (summary : ConversationSummary)
  | notOk (status : Nat)
  | threw
  deriving Repr, DecidableEq

/-- Observable result of one `generateAndSaveSummary` run: the returned
value, the summary stored for the conversation afterwards, and whether the
summarization API was called at all. -/
structure SummaryRunResult where
  returned : Option ConversationSummary
  stored : Option ConversationSummary
  apiCalled : Bool
  deriving Repr, DecidableEq

/-- `generateAndSaveSummary(conversationId, messages)`
(`src/lib/context-manager.ts` lines 54-86).  `messages.slice(0, -40)` drops
the short-term window (last `SHORT_TERM_TURNS * 2` messages); if nothing
remains the function returns `null` without calling the API.  A non-OK
response returns `null`; a thrown error is caught and returns `null`; only
a successful response is persisted via `updateConversationSummary`.
`storedSummary` is the summary currently persisted for the conversation. -/
def generateAndSaveSummary (messages : List CtxMessage)
    (fetchOutcome : SummaryFetchOutcome)
    (storedSummary : Option ConversationSummary) : SummaryRunResult :=
  let messagesToSummarize :=
    messages.take (messages.length - SHORT_TERM_TURNS * 2)
  if messagesToSummarize.length = 0 then ⟨none, storedSummary, false⟩
  else
    match fetchOutcome with
    | .ok summary => ⟨some summary, some summary, true⟩
    | .notOk _ => ⟨none, storedSummary, true⟩
    | .threw => ⟨none, storedSummary, true⟩

/-- C8: `generateAndSaveSummary` never throws (it is total and always
returns a value); when at most 40 messages exist nothing older than the
short-term window remains, so it returns `null` without calling the
summarization API and leaves the stored summary unchanged; and on a non-OK
response or a thrown error it returns `null` and the previously stored
summary persists. -/
theorem generateAndSaveSummary_spec (messages : List CtxMessage)
    (fetchOutcome : SummaryFetchOutcome)
    (storedSummary : Option ConversationSummary) :
    (messages.length ≤ 40 →
      generateAndSaveSummary messages fetchOutcome storedSummary =
        ⟨none, storedSummary, false⟩)
    ∧ (∀ code, generateAndSaveSummary messages (.notOk code) storedSummary =
        ⟨none, storedSummary,
          decide (0 < messages.length - SHORT_TERM_TURNS * 2)⟩)
    ∧ (generateAndSaveSummary messages .threw storedSummary =
        ⟨none, storedSummary,
          decide (0 < messages.length - SHORT_TERM_TURNS * 2)⟩) := by
  have hlen : (messages.take (messages.length - SHORT_TERM_TURNS * 2)).length
      = messages.length - SHORT_TERM_TURNS * 2 := by
    rw [List.length_take]
    omega
  refine ⟨?_, ?_, ?_⟩
  · intro h40
    have hz : messages.length - SHORT_TERM_TURNS * 2 = 0 := by
      have : SHORT_TERM_TURNS = 20 := rfl
      omega
    rw [generateAndSaveSummary.eq_def]
    simp [hlen, hz]
  · intro code
    rw [generateAndSaveSummary.eq_def]
    by_cases hz : messages.length - SHORT_TERM_TURNS * 2 = 0
    · simp [hlen, hz]
    · simp [hlen, hz, Nat.pos_of_ne_zero hz]
  · rw [generateAndSaveSummary.eq_def]
    by_cases hz : messages.length - SHORT_TERM_TURNS * 2 = 0
    · simp [hlen, hz]
    · simp [hlen, hz, Nat.pos_of_ne_zero hz]

/-- Witness for `generateAndSaveSummary_spec`: with exactly 40 messages (20
turns), a previously stored summary and a would-be successful API call, the
function still returns `null`, keeps the old summary and never calls the
API. -/
theorem generateAndSaveSummary_spec_witness :
    generateAndSaveSummary (List.replicate 40 ⟨Role.user, "m"⟩)
        (.ok ⟨"ctx", [], [], [], "state"⟩)
        (some ⟨"old", [], [], [], "s"⟩) =
      ⟨none, some ⟨"old", [], [], [], "s"⟩, false⟩ :=
  (generateAndSaveSummary_spec (List.replicate 40 ⟨Role.user, "m"⟩)
    (.ok ⟨"ctx", [], [], [], "state"⟩) (some ⟨"old", [], [], [], "s"⟩)).1
    (by decide)

/-- `content.replace(/\n/g, ' ')` — every newline becomes a space
(`src/lib/db/conversations.ts` line 140). -/
def collapseNewlines (content : String) : List Char :=
  content.toList.map (fun c => if c = '\n' then ' ' else c)

/-- `String.prototype.trim`: strip whitespace from both ends. -/
def trimChars (cs : List Char) : List Char :=
  ((cs.dropWhile Char.isWhitespace).reverse.dropWhile Char.isWhitespace).reverse

/-- `generateTitle(content)` (`src/lib/db/conversations.ts` lines 138-145):
collapse newlines, trim, return as-is when at most 30 characters, otherwise
the first 30 characters followed by `'...'`. -/
def generateTitle (content : String) : String :=
  let cleaned := String.mk (trimChars (collapseNewlines content))
  if cleaned.length ≤ 30 then cleaned
  else String.mk (cleaned.toList.take 30) ++ "..."

/-- The default title given by `createConversation` (line 20). -/
def DEFAULT_TITLE : String := "新しい会話"

/-- The title-update rule of `addMessage` (`src/lib/db/conversations.ts`
lines 64-68): when the conversation still has the default title and the
appended message has role `user`, the new title is `generateTitle` of the
message content; otherwise the title is unchanged. -/
def addMessageTitle (conversationTitle : String) (messageRole : Role)
    (messageContent : String) : String :=
  if conversationTitle = DEFAULT_TITLE ∧ messageRole = Role.user then
    generateTitle messageContent
  else conversationTitle

/-- C9 (counterexample): appending a 31-character user message to a
default-titled conversation yields a 33-character title — the first 30
characters plus `'...'` — so the title is not the content truncated to at
most 30 characters. -/
theorem generateTitle_exceeds_30 :
    ¬((addMessageTitle "新しい会話" Role.user
        (String.mk (List.replicate 31 'a'))).length ≤ 30)
    ∧ addMessageTitle "新しい会話" Role.user
        (String.mk (List.replicate 31 'a')) =
      String.mk (List.replicate 30 'a') ++ "..." := by
  constructor
  · decide
  · decide

/-- C9 (amended): when a message is appended to a conversation whose title
is still the default and the message role is `user`, the title becomes the
message content with newlines collapsed to spaces and ends trimmed, used
as-is when that cleaned form is at most 30 characters; otherwise the first
30 characters of the cleaned form followed by `'...'` (33 characters in
total).  Non-user roles and non-default titles leave the title unchanged. -/
theorem generateTitle_spec (title c : String) :
    (addMessageTitle DEFAULT_TITLE Role.user c = generateTitle c)
    ∧ (title ≠ DEFAULT_TITLE → addMessageTitle title Role.user c = title)
    ∧ (addMessageTitle title Role.assistant c = title)
    ∧ (addMessageTitle title Role.system c = title)
    ∧ ((String.mk (trimChars (collapseNewlines c))).length ≤ 30 →
        generateTitle c = String.mk (trimChars (collapseNewlines c)))
    ∧ (30 < (String.mk (trimChars (collapseNewlines c))).length →
        generateTitle c =
          String.mk ((trimChars (collapseNewlines c)).take 30) ++ "..." ∧
        (generateTitle c).length = 33) := by
  refine ⟨?_, ?_, ?_, ?_, ?_, ?_⟩
  · simp [addMessageTitle]
  · intro h
    simp [addMessageTitle, h]
  · simp [addMessageTitle]
  · simp [addMessageTitle]
  · intro h
    rw [String.length_mk] at h
    simp [generateTitle, h]
  · intro h
    rw [String.length_mk] at h
    have hn : ¬ (trimChars (collapseNewlines c)).length ≤ 30 := by
      omega
    have heq : generateTitle c =
        String.mk ((trimChars (collapseNewlines c)).take 30) ++ "..." := by
      simp [generateTitle, hn]
    refine ⟨heq, ?_⟩
    rw [heq, String.length_append, String.length_mk, List.length_take]
    have h3 : ("..." : String).length = 3 := rfl
    rw [h3]
    omega

/-- Witness for `generateTitle_spec`: the 31-character content produces a
33-character title. -/
theorem generateTitle_spec_witness :
    (generateTitle (String.mk (List.replicate 31 'a'))).length = 33 :=
  ((generateTitle_spec "t" (String.mk (List.replicate 31 'a'))).2.2.2.2.2
    (by decide)).2

/-- An error caught by the `catch` of the chat route handler: either a
`SyntaxError` (thrown by `req.json()` on malformed JSON) or any other
error, carried as its `String(error)` rendering. -/
inductive RouteError where
  | syntaxError
  | otherError (stringified : String)
  deriving Repr, DecidableEq

/-- A raw, unvalidated `parts` element: `z.object({type: z.string()})
.passthrough()`; `type = none` models an absent or non-string `type`. -/
structure RawPart where
  type : Option String
  deriving Repr, DecidableEq

/-- A raw, unvalidated message of the request body.  `none` in a field
models an absent or wrongly-typed value; `parts = none` is legal and
defaults to `[]` (`.default([])`). -/
structure RawChatMessage where
  id : Option String
  role : Option String
  parts : Option (List RawPart)
  deriving Repr, DecidableEq

/-- The raw request body checked by `chatRequestSchema`
(`src/app/api/chat/route.ts` lines 98-111).  `midTermSummary` is validated
with `z.any()`, which never produces an issue, so it is not modelled. -/
structure RawChatBody where
  messages : Option (List RawChatMessage)
  conversationId : Option String
  mode : Option String
  thinkingLevel : Option String
  longTermMemory : Option String
  deriving Repr, DecidableEq

/-- Per-message validation issues: `id` must be a string, `role` must be
one of the three enum values, every part needs a string `type`. -/
def messageIssues (m : RawChatMessage) : List String :=
  (match m.id with
   | some _ => []
   | none => ["messages.id: expected string"]) ++
  (match m.role with
   | some r =>
     if r = "user" || r = "assistant" || r = "system" then []
     else ["messages.role: invalid enum value"]
   | none => ["messages.role: invalid enum value"]) ++
  ((m.parts.getD []).foldr
    (fun p acc =>
      (match p.type with
       | some _ => []
       | none => ["messages.parts.type: expected string"]) ++ acc) [])

/-- The issue list produced by `chatRequestSchema.safeParse`: the per-field
issues of every message, the 100-message cap, and the `mode`,
`thinkingLevel` and `longTermMemory` constraints. -/
def chatRequestSchemaIssues (body : RawChatBody) : List String :=
  (match body.messages with
   | none => ["messages: expected array"]
   | some msgs =>
     (msgs.foldr (fun m acc => messageIssues m ++ acc) []) ++
     (if msgs.length ≤ 100 then []
      else ["messages: array must contain at most 100 elements"])) ++
  (match body.mode with
   | none => []
   | some md =>
     if md = "auto" || md = "general" || md = "research" || md = "coding"
     then [] else ["mode: invalid enum value"]) ++
  (match body.thinkingLevel with
   | none => []
   | some tl =>
     if tl = "minimal" || tl = "low" || tl = "medium" || tl = "high"
     then [] else ["thinkingLevel: invalid enum value"]) ++
  (match body.longTermMemory with
   | none => []
   | some mem =>
     if mem.length ≤ 10000 then []
     else ["longTermMemory: string must contain at most 10000 characters"])

/-- The four response shapes the chat route can produce. -/
inductive ChatApiResponse where
  | invalidBody (issues : List String)
  | invalidJson
  | internalError (details : String)
  | streamResponse
  deriving Repr, DecidableEq

/-- HTTP status attached to each response shape (route lines 124-196). -/
def statusOf : ChatApiResponse → Nat
  | .invalidBody _ => 400
  | .invalidJson => 400
  | .internalError _ => 500
  | .streamResponse => 200

/-- The `POST` handler (`src/app/api/chat/route.ts` lines 117-199).
`parsedBody` is the outcome of `await req.json()`; `orchestrateOutcome` is
the outcome of the orchestration/streaming step for the validated body.
The boolean of the pair records whether `orchestrate` was invoked.  Thrown
errors are caught at the bottom; `SyntaxError` yields the `Invalid JSON`
response, anything else the 500 response with the stringified cause. -/
def POSTChat (parsedBody : Except RouteError RawChatBody)
    (orchestrateOutcome : RawChatBody → Except RouteError Unit) :
    ChatApiResponse × Bool :=
  match parsedBody with
  | .error .syntaxError => (.invalidJson, false)
  | .error (.otherError s) => (.internalError s, false)
  | .ok body =>
    if (chatRequestSchemaIssues body).isEmpty then
      match orchestrateOutcome body with
      | .ok _ => (.streamResponse, true)
      | .error .syntaxError => (.invalidJson, true)
      | .error (.otherError s) => (.internalError s, true)
    else (.invalidBody (chatRequestSchemaIssues body), false)

theorem mem_foldr_append {α β : Type} (f : α → List β) (l : List α) (x : β)
    (a : α) (ha : a ∈ l) (hx : x ∈ f a) :
    x ∈ l.foldr (fun m acc => f m ++ acc) [] := by
  induction l with
  | nil => cases ha
  | cons b bs ih =>
    simp only [List.foldr_cons, List.mem_append]
    rcases List.mem_cons.mp ha with rfl | h
    · exact Or.inl hx
    · exact Or.inr (ih h)

/-- C5: a request body whose messages array exceeds 100 entries, or that
fails field validation (invalid role, `longTermMemory` over 10000 chars),
is rejected with a 400 response carrying the issue list before the
orchestrator runs; a malformed-JSON body yields a distinct 400 response;
any other internal failure yields a 500 response with the stringified
cause. -/
theorem chatRoute_validation_spec (body : RawChatBody)
    (orch : RawChatBody → Except RouteError Unit) :
    (∀ msgs, body.messages = some msgs → 100 < msgs.length →
      chatRequestSchemaIssues body ≠ [])
    ∧ (∀ msgs m r, body.messages = some msgs → m ∈ msgs → m.role = some r →
        r ≠ "user" → r ≠ "assistant" → r ≠ "system" →
        chatRequestSchemaIssues body ≠ [])
    ∧ (∀ mem, body.longTermMemory = some mem → 10000 < mem.length →
        chatRequestSchemaIssues body ≠ [])
    ∧ (chatRequestSchemaIssues body ≠ [] →
        POSTChat (.ok body) orch =
          (.invalidBody (chatRequestSchemaIssues body), false) ∧
        statusOf (.invalidBody (chatRequestSchemaIssues body)) = 400)
    ∧ (POSTChat (.error .syntaxError) orch = (.invalidJson, false) ∧
        statusOf .invalidJson = 400 ∧
        ∀ issues, ChatApiResponse.invalidJson ≠ .invalidBody issues)
    ∧ (∀ s, chatRequestSchemaIssues body = [] →
        orch body = .error (.otherError s) →
        POSTChat (.ok body) orch = (.internalError s, true) ∧
        statusOf (.internalError s) = 500) := by
  refine ⟨?_, ?_, ?_, ?_, ⟨rfl, rfl, fun issues => by simp⟩, ?_⟩
  · intro msgs hm hlen
    apply List.ne_nil_of_mem (a := "messages: array must contain at most 100 elements")
    rw [chatRequestSchemaIssues.eq_def, hm]
    have hif : (if msgs.length ≤ 100 then ([] : List String)
        else ["messages: array must contain at most 100 elements"]) =
        ["messages: array must contain at most 100 elements"] :=
      if_neg (by omega)
    simp only [hif]
    simp [List.mem_append]
  · intro msgs m r hm hmem hrole h1 h2 h3
    apply List.ne_nil_of_mem (a := "messages.role: invalid enum value")
    rw [chatRequestSchemaIssues.eq_def, hm]
    have hmsg : "messages.role: invalid enum value" ∈ messageIssues m := by
      rw [messageIssues.eq_def, hrole]
      have hif : (if r = "user" || r = "assistant" || r = "system" then
          ([] : List String) else ["messages.role: invalid enum value"]) =
          ["messages.role: invalid enum value"] := by
        rw [if_neg]
        simp [h1, h2, h3]
      simp only [hif]
      simp [List.mem_append]
    have hfold := mem_foldr_append messageIssues msgs
      "messages.role: invalid enum value" m hmem hmsg
    simp [List.mem_append, hfold]
  · intro mem hm hlen
    apply List.ne_nil_of_mem
      (a := "longTermMemory: string must contain at most 10000 characters")
    rw [chatRequestSchemaIssues.eq_def, hm]
    have hif : (if mem.length ≤ 10000 then ([] : List String)
        else ["longTermMemory: string must contain at most 10000 characters"]) =
        ["longTermMemory: string must contain at most 10000 characters"] :=
      if_neg (by omega)
    simp only [hif]
    simp [List.mem_append]
  · intro hne
    refine ⟨?_, rfl⟩
    simp only [POSTChat]
    rw [if_neg (fun h => hne (List.isEmpty_iff.mp h))]
  · intro s hempty horch
    refine ⟨?_, rfl⟩
    simp only [POSTChat]
    rw [if_pos (List.isEmpty_iff.mpr hempty), horch]

/-- Witness for `chatRoute_validation_spec`: a body with 101 well-formed
messages is rejected with the 400 issue-list response and the orchestrator
is never invoked. -/
theorem chatRoute_validation_spec_witness :
    POSTChat (.ok ⟨some (List.replicate 101 ⟨some "i", some "user", some []⟩),
        none, none, none, none⟩) (fun _ => .ok ()) =
      (.invalidBody (chatRequestSchemaIssues
        ⟨some (List.replicate 101 ⟨some "i", some "user", some []⟩),
         none, none, none, none⟩), false) :=
  ((chatRoute_validation_spec
      ⟨some (List.replicate 101 ⟨some "i", some "user", some []⟩),
       none, none, none, none⟩ (fun _ => .ok ())).2.2.2.1
    ((chatRoute_validation_spec
        ⟨some (List.replicate 101 ⟨some "i", some "user", some []⟩),
         none, none, none, none⟩ (fun _ => .ok ())).1
      (List.replicate 101 ⟨some "i", some "user", some []⟩) rfl
      (by simp))).1

/-- Witness for `estimateMessageChars_parts_only_retention`: a `file` part
counts 0, and a parts-less message (size 0) sandwiched between an older
message and a small newer one survives trimming at budget 10. -/
theorem estimateMessageChars_parts_only_retention_witness :
    partChars ⟨"file", none⟩ = 0 ∧
    ([⟨Role.user, "hello", none⟩,
      ⟨Role.user, "", some [⟨"text", some "ab"⟩]⟩] :
        List OrchestratorMessage) <:+
      trimMessagesToFit
        ([⟨Role.assistant, "x", some [⟨"text", some "abc"⟩]⟩] ++
          ⟨Role.user, "hello", none⟩ ::
            [⟨Role.user, "", some [⟨"text", some "ab"⟩]⟩]) 10 :=
  ⟨estimateMessageChars_parts_only_retention.2.2.1 ⟨"file", none⟩
      (by decide) (by decide),
   estimateMessageChars_parts_only_retention.2.2.2.2.2
     [⟨Role.assistant, "x", some [⟨"text", some "abc"⟩]⟩]
     [⟨Role.user, "", some [⟨"text", some "ab"⟩]⟩]
     ⟨Role.user, "hello", none⟩ 10 rfl (by decide)⟩
